import Mathlib

/-!
Shallow embedding of `scripts/python/autosave.py` (class `AutosaveManager`).

Modelling choices:
* Host inputs (the string returned by `hou.hscript("autosave")`, whether a
  `QApplication` exists and we are on its GUI thread, and whether
  `hou.hipFile.save()` raises) are fields of an `Env` record.
* The mutable attributes of the Python object become a `ManagerState` record.
  `orphanedTimers` is a ghost field recording every `QTimer` object that was
  replaced by a fresh `QTimer()` at line 109 of the source, so that "at most
  one active timer" is expressible.
* Python numbers are modelled as exact fractions (`0.2` becomes `1/5`; no
  claim depends on IEEE rounding).  `autosave_interval` is dynamically typed
  in Python, so it is a `PyVal`: a number or a string.  `float(...)` and
  `int(...)` are modelled on plain decimal literals, and `str * int` is
  string repetition, as in Python.
* Raising an exception is an `Except.error`; `try/except` is a `match`.
* Side effects on the host are accumulated in a `List Effect`.
* Qt's `close()` on the message box is modelled as hiding it; a dialog can
  only emit `finished` (running `auto_save_done`) while it is visible.
-/

deriving instance DecidableEq for Except

namespace Autosave

/-- Inputs provided by the host application and GUI toolkit during one call:
`hscriptAutosave` is `hou.hscript("autosave")[0]`, `qappExists` is
`QApplication.instance() is not None`, `onGuiThread` is
`qapp.thread() == QThread.currentThread()`, and `hipSaveRaises` tells whether
`hou.hipFile.save()` raises. -/
structure Env where
  hscriptAutosave : String
  qappExists : Bool
  onGuiThread : Bool
  hipSaveRaises : Bool
  deriving DecidableEq

/-- Observable calls into the host made by the script. -/
inductive Effect where
  | hipSave
  | hscript (cmd : String)
  | addEventCallback
  | showDialog
  | timerStart (ms : ℤ)
  deriving DecidableEq

/-- The one exception kind the claims need: Python's `ValueError`. -/
inductive PyExc where
  | valueError
  deriving DecidableEq

/-- A dynamically typed Python value, as far as `autosave_interval` needs:
a number or a string.  A number is the exact fraction `n / d` kept in
unreduced form; every number the script builds has a positive denominator. -/
inductive PyVal where
  | num (n : ℤ) (d : ℕ)
  | str (s : String)
  deriving DecidableEq

/-- State of one `QTimer` object. -/
structure TimerState where
  active : Bool
  singleShot : Bool
  intervalMs : ℤ
  deriving DecidableEq

/-- State of one `QMessageBox` object, with the fields the script sets. -/
structure MsgBox where
  windowTitle : String
  text : String
  buttons : List String
  defaultButton : Option String
  escapeButton : Option String
  modal : Bool
  visible : Bool
  finishedConnected : Bool
  deriving DecidableEq

/-- The mutable attributes of `AutosaveManager`, plus the ghost list of
`QTimer` objects that were replaced by a new `QTimer()`. -/
structure ManagerState where
  autosave_session_mute : Bool
  autosave_timer : Option TimerState
  autosave_msg : Option MsgBox
  autosave_interval : PyVal
  orphanedTimers : List TimerState
  deriving DecidableEq

/-- The state set up by `AutosaveManager.__init__` (lines 24-27). -/
def initState : ManagerState :=
  { autosave_session_mute := false
    autosave_timer := none
    autosave_msg := none
    autosave_interval := PyVal.num 1 5
    orphanedTimers := [] }

/-- Line 37-38: `hou.hscript("autosave")[0] == "autosave on\n"`. -/
def autosave_enabled (env : Env) : Bool :=
  env.hscriptAutosave == "autosave on\n"

/-- `hou.hipFile.save()`: succeeds or raises, as the environment dictates. -/
def hipFileSave (env : Env) : Except PyExc Unit :=
  if env.hipSaveRaises then Except.error PyExc.valueError else Except.ok ()

/-- Lines 41-54: `save_scene` tries `hou.hipFile.save()`, returns `True` on
success and `False` when any exception is raised (the exception is swallowed
by `except Exception`); the manager's state is untouched either way. -/
def save_scene (env : Env) (σ : ManagerState) : Bool × ManagerState × List Effect :=
  match hipFileSave env with
  | Except.ok _ => (true, σ, [Effect.hipSave])
  | Except.error _ => (false, σ, [Effect.hipSave])

/-- Lines 57-72: muted sessions never run the timer; otherwise the timer runs
exactly when a `QApplication` exists and we are on its GUI thread. -/
def should_autosave_timer_run (env : Env) (σ : ManagerState) : Bool :=
  if σ.autosave_session_mute then false
  else env.qappExists && env.onGuiThread

/-- Lines 75-82: `self.autosave_timer is not None and self.autosave_timer.isActive()`. -/
def is_autosave_timer_active (σ : ManagerState) : Bool :=
  match σ.autosave_timer with
  | none => false
  | some t => t.active

/-- Numeric value of a digit character. -/
def charVal (c : Char) : ℕ := c.toNat - 48

/-- Digit run to a natural number (used by the `int(...)` model). -/
def parseNatAux : List Char → ℕ → Option ℕ
  | [], acc => some acc
  | c :: cs, acc =>
      if c.isDigit then parseNatAux cs (10 * acc + charVal c) else none

/-- Value of a (known all-digit) run, for the `float(...)` model. -/
def digitsToNat (cs : List Char) : ℕ :=
  cs.foldl (fun a c => 10 * a + charVal c) 0

/-- Models Python `int(s)` on a string: optional sign followed by a nonempty
digit run; anything else raises `ValueError` (returns `none`). -/
def pyIntChars : List Char → Option ℤ
  | [] => none
  | '+' :: cs => if cs.isEmpty then none else (parseNatAux cs 0).map Int.ofNat
  | '-' :: cs => if cs.isEmpty then none else (parseNatAux cs 0).map (fun n => -(n : ℤ))
  | c :: cs =>
      if c.isDigit then (parseNatAux (c :: cs) 0).map Int.ofNat else none

/-- Unsigned part of the `float(...)` model: `digits`, `digits.digits`,
`digits.` or `.digits`. -/
def parseUFloat (cs : List Char) : Option (ℤ × ℕ) :=
  let ip := cs.takeWhile Char.isDigit
  let rest := cs.dropWhile Char.isDigit
  match rest with
  | [] => if ip.isEmpty then none else some ((digitsToNat ip : ℤ), 1)
  | '.' :: frac =>
      if frac.all Char.isDigit && !(ip.isEmpty && frac.isEmpty) then
        some (((digitsToNat ip * 10 ^ frac.length + digitsToNat frac : ℕ) : ℤ),
          10 ^ frac.length)
      else none
  | _ => none

/-- Models Python `float(s)` on plain decimal literals (optional sign, digits,
optional fractional part), returned as an exact fraction; exotic forms
(exponents, `inf`, `nan`, underscores, surrounding whitespace) are outside
what the claims need. `none` is a raised `ValueError`. -/
def pyFloatOfString (s : String) : Option (ℤ × ℕ) :=
  match s.data with
  | '+' :: cs => parseUFloat cs
  | '-' :: cs => (parseUFloat cs).map (fun p => (-p.1, p.2))
  | cs => parseUFloat cs

/-- Python `value * n` for a natural literal `n`: numeric multiplication on
numbers, repetition on strings. -/
def pyMulNat (v : PyVal) (n : ℕ) : PyVal :=
  match v with
  | PyVal.num a d => PyVal.num (a * n) d
  | PyVal.str s => PyVal.str ⟨(List.replicate n s.data).flatten⟩

/-- Python `int(value)`: truncation toward zero on numbers, string parsing on
strings (raising `ValueError` on failure). -/
def pyInt (v : PyVal) : Except PyExc ℤ :=
  match v with
  | PyVal.num a d => Except.ok (a.tdiv (d : ℤ))
  | PyVal.str s =>
      match pyIntChars s.data with
      | some z => Except.ok z
      | none => Except.error PyExc.valueError

/-- Lines 92-95 of `start_autosave_timer`: if the timer is active, stop it and
close the message box if there is one (`close()` hides the dialog). -/
def stopPhase (σ : ManagerState) : ManagerState :=
  if is_autosave_timer_active σ then
    { σ with
      autosave_timer := σ.autosave_timer.map (fun t => { t with active := false })
      autosave_msg := σ.autosave_msg.map (fun m => { m with visible := false }) }
  else σ

/-- Lines 104-107: `self.autosave_interval = float(self.autosave_interval)`
with the `ValueError` caught and only logged, so a non-numeric string is kept
unchanged. -/
def coerceInterval (σ : ManagerState) : ManagerState :=
  match σ.autosave_interval with
  | PyVal.num a d => { σ with autosave_interval := PyVal.num a d }
  | PyVal.str s =>
      match pyFloatOfString s with
      | some p => { σ with autosave_interval := PyVal.num p.1 p.2 }
      | none => σ

/-- The previous `QTimer` object loses its only reference at line 109; record
it in the ghost list. -/
def orphanPush (σ : ManagerState) : List TimerState :=
  match σ.autosave_timer with
  | some t => t :: σ.orphanedTimers
  | none => σ.orphanedTimers

/-- Lines 85-113: stop the active timer (closing any dialog), return if
quitting, return if the timer should not run, coerce the interval with the
caught `float` conversion, then build and start a fresh single-shot `QTimer`
with `int(self.autosave_interval * 60 * 1000)` milliseconds — an expression
that can itself raise (uncaught) when the interval is still a string. -/
def start_autosave_timer (env : Env) (σ : ManagerState) (quitFlag : Bool) :
    Except PyExc (ManagerState × List Effect) :=
  if quitFlag then Except.ok (stopPhase σ, [])
  else if should_autosave_timer_run env (stopPhase σ) then
    match pyInt (pyMulNat (pyMulNat (coerceInterval (stopPhase σ)).autosave_interval 60) 1000) with
    | Except.ok ms =>
        Except.ok
          ({ coerceInterval (stopPhase σ) with
              autosave_timer := some { active := true, singleShot := true, intervalMs := ms }
              orphanedTimers := orphanPush (coerceInterval (stopPhase σ)) },
            [Effect.timerStart ms])
    | Except.error e => Except.error e
  else Except.ok (stopPhase σ, [])

/-- The `QMessageBox` built at lines 124-135: title, text, the three
`YesRole` buttons, "No" as default and escape button, non-modal, shown, with
`finished` connected to `auto_save_done`. -/
def promptBox : MsgBox :=
  { windowTitle := "Autosave"
    text := "Autosave is disabled. Would you like to save now?"
    buttons := ["Save", "No", "No, don\x27t ask again in this session"]
    defaultButton := some "No"
    escapeButton := some "No"
    modal := false
    visible := true
    finishedConnected := true }

/-- Lines 116-135: on timer expiry, query the enabled flag (twice: once in the
debug log, once in the test) and, only when autosave is disabled, build and
show the prompt. -/
def check_autosave (env : Env) (σ : ManagerState) : ManagerState × List Effect :=
  if !autosave_enabled env then
    ({ σ with autosave_msg := some promptBox },
      [Effect.hscript "autosave", Effect.hscript "autosave", Effect.showDialog])
  else
    (σ, [Effect.hscript "autosave", Effect.hscript "autosave"])

/-- Lines 138-154: `clicked` is what `self.autosave_msg.clickedButton()`
reports (the text of the clicked button, or `none`); it is only consulted
when `self.autosave_msg` is set.  "Save" saves then falls through to the
restart; "No, don't ask again in this session" mutes the session and quits
the timer; everything else just restarts the timer.  (The unused `action`
parameter of the Python method is dropped.) -/
def auto_save_done (env : Env) (σ : ManagerState) (clicked : Option String) :
    Except PyExc (ManagerState × List Effect) :=
  let button : Option String :=
    match σ.autosave_msg with
    | some _ => clicked
    | none => none
  match button with
  | some b =>
      if b = "Save" then
        match save_scene env σ with
        | (_, σ2, effs) =>
            match start_autosave_timer env σ2 false with
            | Except.ok (σ3, effs2) => Except.ok (σ3, effs ++ effs2)
            | Except.error e => Except.error e
      else if b = "No, don\x27t ask again in this session" then
        match start_autosave_timer env { σ with autosave_session_mute := true } true with
        | Except.ok (σ3, effs2) => Except.ok (σ3, effs2)
        | Except.error e => Except.error e
      else
        start_autosave_timer env σ false
  | none => start_autosave_timer env σ false

/-- Lines 156-161: restart the timer after a scene save, when it should run. -/
def on_scene_file_saved (env : Env) (σ : ManagerState) :
    Except PyExc (ManagerState × List Effect) :=
  if should_autosave_timer_run env σ then start_autosave_timer env σ false
  else Except.ok (σ, [])

/-- The hipFile event kinds the script distinguishes. -/
inductive HipFileEvent where
  | afterSave
  | other
  deriving DecidableEq

/-- Lines 163-171: only `AfterSave` events do anything. -/
def scene_event_callback (env : Env) (σ : ManagerState) (e : HipFileEvent) :
    Except PyExc (ManagerState × List Effect) :=
  match e with
  | HipFileEvent.afterSave => on_scene_file_saved env σ
  | HipFileEvent.other => Except.ok (σ, [])

/-- Lines 173-180: start the timer when it should run, then register the
hipFile event callback. -/
def setup (env : Env) (σ : ManagerState) :
    Except PyExc (ManagerState × List Effect) :=
  match (if should_autosave_timer_run env σ then start_autosave_timer env σ false
         else Except.ok (σ, [])) with
  | Except.ok (σ2, effs) => Except.ok (σ2, effs ++ [Effect.addEventCallback])
  | Except.error e => Except.error e

/-- The externally triggerable operations of the manager: the timer's timeout
signal, the dialog's `finished` signal (carrying the clicked button's text),
a hipFile event, a `setup` call, and a direct `start_autosave_timer` call. -/
inductive Op where
  | timerFire
  | dialogFinish (clicked : Option String)
  | hipEvent (e : HipFileEvent)
  | setupCall
  | startTimer (quitFlag : Bool)
  deriving DecidableEq

/-- One event-driven step.  `none` means the event cannot occur in this state:
the timeout of a timer that is not active never fires, and a dialog that is
not visible (or not connected) never finishes.  A single-shot `QTimer` goes
inactive on expiry before its slot runs, and a dialog closes as it finishes,
before its `finished` slot runs. -/
def step (env : Env) (op : Op) (σ : ManagerState) :
    Option (Except PyExc (ManagerState × List Effect)) :=
  match op with
  | Op.timerFire =>
      if is_autosave_timer_active σ then
        some (Except.ok (check_autosave env
          { σ with autosave_timer := σ.autosave_timer.map (fun t => { t with active := false }) }))
      else none
  | Op.dialogFinish clicked =>
      match σ.autosave_msg with
      | some m =>
          if m.visible && m.finishedConnected then
            some (auto_save_done env
              { σ with autosave_msg := some { m with visible := false } } clicked)
          else none
      | none => none
  | Op.hipEvent e => some (scene_event_callback env σ e)
  | Op.setupCall => some (setup env σ)
  | Op.startTimer q => some (start_autosave_timer env σ q)

/-- Reflexive-transitive reachability through successful steps, each under an
arbitrary environment. -/
inductive Reaches : ManagerState → ManagerState → Prop where
  | refl (σ : ManagerState) : Reaches σ σ
  | tail (env : Env) (op : Op) (σ σ' : ManagerState) (effs : List Effect)
      (σ'' : ManagerState) :
      step env op σ = some (Except.ok (σ', effs)) → Reaches σ' σ'' → Reaches σ σ''

/-- No message box of this state is visible. -/
def NoVisiblePrompt (σ : ManagerState) : Prop :=
  ∀ m, σ.autosave_msg = some m → m.visible = false

/-- The muted-and-quiet invariant of claim C3: the session is muted, no timer
is active, and no prompt is visible. -/
def MutedQuiet (σ : ManagerState) : Prop :=
  σ.autosave_session_mute = true ∧ is_autosave_timer_active σ = false ∧ NoVisiblePrompt σ

/-- Every ghost-recorded replaced timer was stopped before being replaced. -/
def OrphansInactive (σ : ManagerState) : Prop :=
  ∀ t ∈ σ.orphanedTimers, t.active = false

/-- Number of live active timers: the referenced one plus active orphans. -/
def activeTimerCount (σ : ManagerState) : ℕ :=
  (if is_autosave_timer_active σ then 1 else 0) +
    (σ.orphanedTimers.filter (fun t => t.active)).length

/-! ### Concrete host environments and manager states for instantiation -/

/-- Houdini reports its built-in autosave on; GUI thread available. -/
def envEnabledGui : Env :=
  { hscriptAutosave := "autosave on\n", qappExists := true, onGuiThread := true,
    hipSaveRaises := false }

/-- Houdini reports its built-in autosave off; GUI thread available. -/
def envDisabledGui : Env :=
  { hscriptAutosave := "autosave off\n", qappExists := true, onGuiThread := true,
    hipSaveRaises := false }

/-- A fresh manager whose 12-second single-shot timer is running. -/
def activeTimerState : ManagerState :=
  { initState with
      autosave_timer := some { active := true, singleShot := true, intervalMs := 12000 } }

/-- The same manager after the single-shot timer expired. -/
def expiredTimerState : ManagerState :=
  { initState with
      autosave_timer := some { active := false, singleShot := true, intervalMs := 12000 } }

/-- A fresh manager showing the autosave prompt. -/
def promptOpenState : ManagerState :=
  { initState with autosave_msg := some promptBox }

/-- The manager after "No, don't ask again in this session" was clicked on
the prompt: muted, prompt closed, no timer. -/
def mutedClosedState : ManagerState :=
  { initState with
      autosave_session_mute := true
      autosave_msg := some { promptBox with visible := false } }

/-- The manager after "Save" was clicked on the prompt: prompt closed, scene
saved, timer restarted. -/
def savedRestartState : ManagerState :=
  { initState with
      autosave_msg := some { promptBox with visible := false }
      autosave_timer := some { active := true, singleShot := true, intervalMs := 12000 } }

/-- A manager whose `autosave_interval` was set to a non-numeric string. -/
def strIntervalState : ManagerState :=
  { initState with autosave_interval := PyVal.str "abc" }

/-! ### Basic lemmas about the phases of `start_autosave_timer` -/

theorem stopPhase_mute (σ : ManagerState) :
    (stopPhase σ).autosave_session_mute = σ.autosave_session_mute := by
  unfold stopPhase; split <;> rfl

theorem stopPhase_interval (σ : ManagerState) :
    (stopPhase σ).autosave_interval = σ.autosave_interval := by
  unfold stopPhase; split <;> rfl

theorem stopPhase_orphans (σ : ManagerState) :
    (stopPhase σ).orphanedTimers = σ.orphanedTimers := by
  unfold stopPhase; split <;> rfl

theorem stopPhase_inactive (σ : ManagerState) :
    is_autosave_timer_active (stopPhase σ) = false := by
  unfold stopPhase
  split
  · unfold is_autosave_timer_active
    cases σ.autosave_timer <;> simp
  · rename_i h
    simpa using h

theorem stopPhase_timer_inactive (σ : ManagerState) (t : TimerState)
    (h : (stopPhase σ).autosave_timer = some t) : t.active = false := by
  have h1 := stopPhase_inactive σ
  unfold is_autosave_timer_active at h1
  rw [h] at h1
  exact h1

theorem stopPhase_of_inactive (σ : ManagerState)
    (h : is_autosave_timer_active σ = false) : stopPhase σ = σ := by
  unfold stopPhase
  simp [h]

theorem stopPhase_noVisible (σ : ManagerState) (h : NoVisiblePrompt σ) :
    NoVisiblePrompt (stopPhase σ) := by
  unfold stopPhase
  split
  · intro m hm
    cases hmsg : σ.autosave_msg <;> simp [hmsg] at hm
    subst hm; rfl
  · exact h

theorem coerceInterval_mute (σ : ManagerState) :
    (coerceInterval σ).autosave_session_mute = σ.autosave_session_mute := by
  unfold coerceInterval; split <;> (try split) <;> rfl

theorem coerceInterval_timer (σ : ManagerState) :
    (coerceInterval σ).autosave_timer = σ.autosave_timer := by
  unfold coerceInterval; split <;> (try split) <;> rfl

theorem coerceInterval_msg (σ : ManagerState) :
    (coerceInterval σ).autosave_msg = σ.autosave_msg := by
  unfold coerceInterval; split <;> (try split) <;> rfl

theorem coerceInterval_orphans (σ : ManagerState) :
    (coerceInterval σ).orphanedTimers = σ.orphanedTimers := by
  unfold coerceInterval; split <;> (try split) <;> rfl

theorem coerceInterval_num (σ : ManagerState) (a : ℤ) (d : ℕ)
    (h : σ.autosave_interval = PyVal.num a d) : coerceInterval σ = σ := by
  cases σ with
  | mk mu tm ms iv orp =>
      simp only at h
      subst h
      rfl

/-! ### Behaviour of `start_autosave_timer` -/

theorem save_scene_spec (env : Env) (σ : ManagerState) :
    save_scene env σ = (!env.hipSaveRaises, σ, [Effect.hipSave]) := by
  cases h : env.hipSaveRaises <;> simp [save_scene, hipFileSave, h]

theorem start_quit (env : Env) (σ : ManagerState) :
    start_autosave_timer env σ true = Except.ok (stopPhase σ, []) := rfl

theorem start_muted (env : Env) (σ : ManagerState) (q : Bool)
    (h : σ.autosave_session_mute = true) :
    start_autosave_timer env σ q = Except.ok (stopPhase σ, []) := by
  cases q
  · unfold start_autosave_timer
    simp [should_autosave_timer_run, stopPhase_mute, h]
  · exact start_quit env σ

theorem start_run_num (env : Env) (σ : ManagerState) (a : ℤ) (d : ℕ)
    (h1 : σ.autosave_session_mute = false) (h2 : env.qappExists = true)
    (h3 : env.onGuiThread = true) (h4 : σ.autosave_interval = PyVal.num a d) :
    start_autosave_timer env σ false =
      Except.ok
        ({ stopPhase σ with
            autosave_timer :=
              some { active := true, singleShot := true,
                     intervalMs := (a * 60 * 1000).tdiv (d : ℤ) }
            orphanedTimers := orphanPush (stopPhase σ) },
          [Effect.timerStart ((a * 60 * 1000).tdiv (d : ℤ))]) := by
  have hm : (stopPhase σ).autosave_session_mute = false := by
    rw [stopPhase_mute]; exact h1
  have hi : (stopPhase σ).autosave_interval = PyVal.num a d := by
    rw [stopPhase_interval]; exact h4
  have hc : coerceInterval (stopPhase σ) = stopPhase σ :=
    coerceInterval_num (stopPhase σ) a d hi
  unfold start_autosave_timer
  simp [should_autosave_timer_run, hm, h2, h3, hc, hi, pyMulNat, pyInt]

theorem start_no_hipSave (env : Env) (σ σ' : ManagerState) (q : Bool)
    (effs : List Effect)
    (h : start_autosave_timer env σ q = Except.ok (σ', effs)) :
    Effect.hipSave ∉ effs := by
  unfold start_autosave_timer at h
  split at h
  · injection h with h1
    injection h1 with ha hb
    subst hb
    simp
  · split at h
    · split at h
      · injection h with h1
        injection h1 with ha hb
        subst hb
        simp
      · exact absurd h (by simp)
    · injection h with h1
      injection h1 with ha hb
      subst hb
      simp

theorem start_orphans (env : Env) (σ σ' : ManagerState) (q : Bool)
    (effs : List Effect) (hOI : OrphansInactive σ)
    (h : start_autosave_timer env σ q = Except.ok (σ', effs)) :
    OrphansInactive σ' := by
  have hstop : OrphansInactive (stopPhase σ) := by
    unfold OrphansInactive
    rw [stopPhase_orphans]
    exact hOI
  have hpush : ∀ t ∈ orphanPush (coerceInterval (stopPhase σ)), t.active = false := by
    intro t ht
    unfold orphanPush at ht
    rw [coerceInterval_timer, coerceInterval_orphans, stopPhase_orphans] at ht
    cases htm : (stopPhase σ).autosave_timer with
    | none => rw [htm] at ht; exact hOI t ht
    | some t0 =>
        rw [htm] at ht
        rcases List.mem_cons.mp ht with h1 | h2
        · subst h1; exact stopPhase_timer_inactive σ t htm
        · exact hOI t h2
  unfold start_autosave_timer at h
  split at h
  · injection h with h1
    injection h1 with ha hb
    rw [← ha]
    exact hstop
  · split at h
    · split at h
      · injection h with h1
        injection h1 with ha hb
        rw [← ha]
        intro t ht
        exact hpush t ht
      · exact absurd h (by simp)
    · injection h with h1
      injection h1 with ha hb
      rw [← ha]
      exact hstop

/-! ### Lemmas about `check_autosave`, `auto_save_done` and `step` -/

theorem check_autosave_orphans (env : Env) (σ : ManagerState) :
    ((check_autosave env σ).1).orphanedTimers = σ.orphanedTimers := by
  cases he : autosave_enabled env <;> simp [check_autosave, he]

theorem check_autosave_no_hipSave (env : Env) (σ : ManagerState) :
    Effect.hipSave ∉ (check_autosave env σ).2 := by
  cases he : autosave_enabled env <;> simp [check_autosave, he]

theorem orphansInactive_of_eq (σ1 σ2 : ManagerState)
    (h : σ1.orphanedTimers = σ2.orphanedTimers) (h2 : OrphansInactive σ2) :
    OrphansInactive σ1 := by
  unfold OrphansInactive
  rw [h]
  exact h2

theorem count_le_one (σ : ManagerState) (h : OrphansInactive σ) :
    activeTimerCount σ ≤ 1 := by
  unfold activeTimerCount
  have hf : σ.orphanedTimers.filter (fun t => t.active) = [] := by
    rw [List.filter_eq_nil_iff]
    intro a ha
    simp [h a ha]
  rw [hf]
  split <;> simp

theorem deactivate_inactive (σ : ManagerState) :
    is_autosave_timer_active
      { σ with autosave_timer := σ.autosave_timer.map (fun t => { t with active := false }) } =
      false := by
  cases h : σ.autosave_timer <;> simp [is_autosave_timer_active, h]

/-- Every successful `auto_save_done` run obtains its final state from one
`start_autosave_timer` call on a state with the caller's timers. -/
theorem auto_save_done_from_start (env : Env) (σ σ' : ManagerState)
    (c : Option String) (effs : List Effect)
    (h : auto_save_done env σ c = Except.ok (σ', effs)) :
    ∃ (σ0 : ManagerState) (q : Bool) (effs0 : List Effect),
      σ0.orphanedTimers = σ.orphanedTimers ∧
      start_autosave_timer env σ0 q = Except.ok (σ', effs0) := by
  unfold auto_save_done at h
  cases hs : σ.autosave_msg with
  | none =>
      rw [hs] at h
      exact ⟨σ, false, effs, rfl, h⟩
  | some m =>
      rw [hs] at h
      cases c with
      | none => exact ⟨σ, false, effs, rfl, h⟩
      | some b =>
          simp only [] at h
          by_cases hb : b = "Save"
          · rw [if_pos hb, save_scene_spec] at h
            cases hst : start_autosave_timer env σ false with
            | ok r =>
                obtain ⟨s2, e2⟩ := r
                rw [hst] at h
                injection h with h1
                injection h1 with ha hb2
                rw [ha] at hst
                exact ⟨σ, false, e2, rfl, hst⟩
            | error e => rw [hst] at h; exact absurd h (by simp)
          · rw [if_neg hb] at h
            by_cases hb2 : b = "No, don\x27t ask again in this session"
            · rw [if_pos hb2] at h
              cases hst : start_autosave_timer env
                  { σ with autosave_session_mute := true, autosave_msg := some m } true with
              | ok r =>
                  obtain ⟨s2, e2⟩ := r
                  rw [hst] at h
                  injection h with h1
                  injection h1 with ha hb3
                  rw [ha] at hst
                  exact ⟨{ σ with autosave_session_mute := true, autosave_msg := some m },
                    true, e2, rfl, hst⟩
              | error e => rw [hst] at h; exact absurd h (by simp)
            · rw [if_neg hb2] at h
              exact ⟨σ, false, effs, rfl, h⟩

/-- Responding "No, don't ask again in this session" mutes the session and
quits the timer: the run is exactly a quitting `start_autosave_timer` on the
muted state. -/
theorem auto_save_done_noAsk (env : Env) (σ : ManagerState) (m : MsgBox)
    (hmsg : σ.autosave_msg = some m) :
    auto_save_done env σ (some "No, don\x27t ask again in this session") =
      Except.ok (stopPhase { σ with autosave_session_mute := true }, []) := by
  unfold auto_save_done
  rw [hmsg]
  simp only []
  rw [if_neg (by decide)]
  simp only [if_true]
  rw [start_quit]

/-- Under a muted session every successful step leaves the muted-quiet
invariant intact and neither shows a dialog nor starts a timer. -/
theorem stepMutedQuiet (env : Env) (op : Op) (σ σ' : ManagerState)
    (effs : List Effect) (hMQ : MutedQuiet σ)
    (h : step env op σ = some (Except.ok (σ', effs))) :
    MutedQuiet σ' ∧ Effect.showDialog ∉ effs ∧ ∀ ms, Effect.timerStart ms ∉ effs := by
  obtain ⟨hm, hta, hnv⟩ := hMQ
  have hsr : should_autosave_timer_run env σ = false := by
    simp [should_autosave_timer_run, hm]
  cases op with
  | timerFire =>
      unfold step at h
      rw [hta] at h
      simp at h
  | dialogFinish c =>
      unfold step at h
      cases hmsg : σ.autosave_msg with
      | none => rw [hmsg] at h; simp at h
      | some m =>
          rw [hmsg] at h
          have hv : m.visible = false := hnv m hmsg
          simp [hv] at h
  | hipEvent e =>
      cases e with
      | afterSave =>
          unfold step scene_event_callback on_scene_file_saved at h
          rw [hsr] at h
          simp only [Bool.false_eq_true, if_false] at h
          injection h with h1
          injection h1 with h2
          injection h2 with ha hb
          rw [← ha, ← hb]
          exact ⟨⟨hm, hta, hnv⟩, by simp, by simp⟩
      | other =>
          unfold step scene_event_callback at h
          injection h with h1
          injection h1 with h2
          injection h2 with ha hb
          rw [← ha, ← hb]
          exact ⟨⟨hm, hta, hnv⟩, by simp, by simp⟩
  | setupCall =>
      unfold step setup at h
      rw [hsr] at h
      simp only [Bool.false_eq_true, if_false] at h
      injection h with h1
      injection h1 with h2
      injection h2 with ha hb
      rw [← ha, ← hb]
      exact ⟨⟨hm, hta, hnv⟩, by simp, by simp⟩
  | startTimer q =>
      unfold step at h
      injection h with h1
      rw [start_muted env σ q hm] at h1
      injection h1 with h2
      injection h2 with ha hb
      rw [stopPhase_of_inactive σ hta] at ha
      rw [← ha, ← hb]
      exact ⟨⟨hm, hta, hnv⟩, by simp, by simp⟩

/-- The muted-quiet invariant propagates along every reachable path. -/
theorem reachesMutedQuiet (σ σ' : ManagerState) (h : Reaches σ σ') :
    MutedQuiet σ → MutedQuiet σ' := by
  induction h with
  | refl σ0 => exact id
  | tail env op σ0 σ1 effs σ2 hstep hr ih =>
      intro hMQ
      exact ih ((stepMutedQuiet env op σ0 σ1 effs hMQ hstep).1)

/-! ### The claims -/

/-- C1: on every firing of the autosave timer, `check_autosave` shows the
save prompt exactly when `autosave_enabled` is false; the prompt it shows is
the non-modal question dialog, and when autosave is enabled the state is left
unchanged (no dialog is created). -/
theorem C1_prompt_shown_iff_autosave_disabled (env : Env) (σ : ManagerState) :
    (Effect.showDialog ∈ (check_autosave env σ).2 ↔ autosave_enabled env = false) ∧
    (autosave_enabled env = false →
      (check_autosave env σ).1.autosave_msg = some promptBox ∧
        promptBox.modal = false ∧ promptBox.visible = true ∧
        promptBox.text = "Autosave is disabled. Would you like to save now?") ∧
    (autosave_enabled env = true → (check_autosave env σ).1 = σ) := by
  cases he : autosave_enabled env <;> simp [check_autosave, he, promptBox]

/-- C2: when the user clicks "Save", `auto_save_done` runs `save_scene`
(whose one host call is `hou.hipFile.save()`) and then reschedules the timer
through `start_autosave_timer`: the effect trace is the save followed by the
timer start, and the resulting timer is active. -/
theorem C2_save_button_saves_then_restarts (env : Env) (σ : ManagerState)
    (m : MsgBox) (a : ℤ) (d : ℕ)
    (hmsg : σ.autosave_msg = some m) (hmute : σ.autosave_session_mute = false)
    (hq : env.qappExists = true) (hg : env.onGuiThread = true)
    (hint : σ.autosave_interval = PyVal.num a d) :
    ∃ σ' ms, auto_save_done env σ (some "Save") =
        Except.ok (σ', [Effect.hipSave, Effect.timerStart ms]) ∧
      is_autosave_timer_active σ' = true := by
  refine ⟨{ stopPhase σ with
      autosave_timer :=
        some { active := true, singleShot := true, intervalMs := (a * 60 * 1000).tdiv (d : ℤ) }
      orphanedTimers := orphanPush (stopPhase σ) },
    (a * 60 * 1000).tdiv (d : ℤ), ?_, rfl⟩
  unfold auto_save_done
  rw [hmsg]
  simp only [if_true]
  rw [save_scene_spec]
  simp only []
  rw [start_run_num env σ a d hmute hq hg hint]
  rfl

/-- C2 witness: the concrete "Save" response on a fresh prompting manager. -/
theorem C2_save_button_saves_then_restarts_witness :
    ∃ σ' ms, auto_save_done envDisabledGui promptOpenState (some "Save") =
        Except.ok (σ', [Effect.hipSave, Effect.timerStart ms]) ∧
      is_autosave_timer_active σ' = true :=
  C2_save_button_saves_then_restarts envDisabledGui promptOpenState promptBox 1 5
    (by decide) (by decide) (by decide) (by decide) (by decide)

/-- C5: `autosave_enabled` is true exactly when the first element of
`hou.hscript("autosave")` is the exact string "autosave on\n"; any other
string yields false. -/
theorem C5_enabled_iff_exact_hscript_string (env : Env) :
    autosave_enabled env = true ↔ env.hscriptAutosave = "autosave on\n" := by
  simp [autosave_enabled]

/-- C6: when the clicked button is "No" (also the default and escape button,
so dismissal reports it), `auto_save_done` restarts the timer, performs no
save, and leaves the mute flag false. -/
theorem C6_no_button_restarts_without_saving (env : Env) (σ : ManagerState)
    (m : MsgBox) (a : ℤ) (d : ℕ)
    (hmsg : σ.autosave_msg = some m) (hmute : σ.autosave_session_mute = false)
    (hq : env.qappExists = true) (hg : env.onGuiThread = true)
    (hint : σ.autosave_interval = PyVal.num a d) :
    ∃ σ' ms, auto_save_done env σ (some "No") =
        Except.ok (σ', [Effect.timerStart ms]) ∧
      is_autosave_timer_active σ' = true ∧
      σ'.autosave_session_mute = false ∧
      Effect.hipSave ∉ ([Effect.timerStart ms] : List Effect) := by
  refine ⟨{ stopPhase σ with
      autosave_timer :=
        some { active := true, singleShot := true, intervalMs := (a * 60 * 1000).tdiv (d : ℤ) }
      orphanedTimers := orphanPush (stopPhase σ) },
    (a * 60 * 1000).tdiv (d : ℤ), ?_, rfl, ?_, by simp⟩
  · unfold auto_save_done
    rw [hmsg]
    simp only []
    rw [if_neg (by decide), if_neg (by decide)]
    exact start_run_num env σ a d hmute hq hg hint
  · show (stopPhase σ).autosave_session_mute = false
    rw [stopPhase_mute]
    exact hmute

/-- C6 witness: the concrete "No" response on a fresh prompting manager. -/
theorem C6_no_button_restarts_without_saving_witness :
    ∃ σ' ms, auto_save_done envDisabledGui promptOpenState (some "No") =
        Except.ok (σ', [Effect.timerStart ms]) ∧
      is_autosave_timer_active σ' = true ∧
      σ'.autosave_session_mute = false ∧
      Effect.hipSave ∉ ([Effect.timerStart ms] : List Effect) :=
  C6_no_button_restarts_without_saving envDisabledGui promptOpenState promptBox 1 5
    (by decide) (by decide) (by decide) (by decide) (by decide)

/-- C8: `save_scene` never propagates an exception: it is a total function
returning `True` exactly when `hou.hipFile.save()` succeeds and `False` when
it raises, with the manager state unchanged either way and the save call as
its one host effect. -/
theorem C8_save_scene_swallows_exceptions (env : Env) (σ : ManagerState) :
    save_scene env σ = (!env.hipSaveRaises, σ, [Effect.hipSave]) := by
  cases h : env.hipSaveRaises <;> simp [save_scene, hipFileSave, h]

/-- C3: clicking "No, don't ask again in this session" mutes the session and
stops the timer without restarting it; from then on `should_autosave_timer_run`
is false under every environment, every reachable state is muted with no
active timer and no visible prompt, and no later successful step ever shows a
dialog or starts a timer. -/
theorem C3_noAsk_mutes_session_forever (env : Env) (σ σ' : ManagerState)
    (effs : List Effect)
    (h : step env (Op.dialogFinish (some "No, don\x27t ask again in this session")) σ =
      some (Except.ok (σ', effs))) :
    σ'.autosave_session_mute = true ∧ is_autosave_timer_active σ' = false ∧
      effs = [] ∧
      (∀ env2, should_autosave_timer_run env2 σ' = false) ∧
      ∀ σ'', Reaches σ' σ'' →
        MutedQuiet σ'' ∧
          ∀ env2 op σ3 effs2, step env2 op σ'' = some (Except.ok (σ3, effs2)) →
            is_autosave_timer_active σ3 = false ∧ Effect.showDialog ∉ effs2 ∧
              ∀ ms, Effect.timerStart ms ∉ effs2 := by
  unfold step at h
  simp only [] at h
  cases hmsg : σ.autosave_msg with
  | none => rw [hmsg] at h; simp at h
  | some m =>
      rw [hmsg] at h
      simp only [] at h
      cases hc : m.visible && m.finishedConnected with
      | false => rw [hc] at h; simp at h
      | true =>
          rw [hc] at h
          simp only [eq_self_iff_true, if_true] at h
          injection h with h1
          rw [auto_save_done_noAsk env _ { m with visible := false } rfl] at h1
          injection h1 with h2
          injection h2 with ha hb
          subst hb
          rw [← ha]
          have hMQ : MutedQuiet (stopPhase
              { σ with autosave_msg := some { m with visible := false }, autosave_session_mute := true }) := by
            refine ⟨?_, stopPhase_inactive _, ?_⟩
            · rw [stopPhase_mute]
            · apply stopPhase_noVisible
              intro m' hm'
              injection hm' with e
              rw [← e]
          refine ⟨hMQ.1, hMQ.2.1, rfl, ?_, ?_⟩
          · intro env2
            simp [should_autosave_timer_run, stopPhase_mute]
          · intro σ'' hr
            have hMQ'' := reachesMutedQuiet _ _ hr hMQ
            refine ⟨hMQ'', ?_⟩
            intro env2 op σ3 effs2 hstep
            obtain ⟨hMQ3, hsd, hts⟩ := stepMutedQuiet env2 op σ'' σ3 effs2 hMQ'' hstep
            exact ⟨hMQ3.2.1, hsd, hts⟩

/-- C3 witness: the concrete "No, don't ask again" response on a fresh
prompting manager. -/
theorem C3_noAsk_mutes_session_forever_witness :
    mutedClosedState.autosave_session_mute = true ∧
      is_autosave_timer_active mutedClosedState = false ∧
      ([] : List Effect) = [] ∧
      (∀ env2, should_autosave_timer_run env2 mutedClosedState = false) ∧
      ∀ σ'', Reaches mutedClosedState σ'' →
        MutedQuiet σ'' ∧
          ∀ env2 op σ3 effs2, step env2 op σ'' = some (Except.ok (σ3, effs2)) →
            is_autosave_timer_active σ3 = false ∧ Effect.showDialog ∉ effs2 ∧
              ∀ ms, Effect.timerStart ms ∉ effs2 :=
  C3_noAsk_mutes_session_forever envDisabledGui promptOpenState mutedClosedState []
    (by decide)

/-- C4 is false on the code: with Houdini's autosave enabled, the expiry of
the single-shot timer runs `check_autosave` without rescheduling anything —
the concrete post-state has an inactive timer and the effect trace holds no
timer start. -/
theorem C4_counterexample_enabled_expiry_not_rescheduled :
    step envEnabledGui Op.timerFire activeTimerState =
      some (Except.ok (expiredTimerState,
        [Effect.hscript "autosave", Effect.hscript "autosave"])) ∧
    is_autosave_timer_active expiredTimerState = false := by
  refine ⟨by decide, by decide⟩

/-- C4 (amended): when the timer expires and the check finds autosave
enabled, `check_autosave` does not reschedule: the only state change is the
single-shot timer going inactive, the effects are the two `hscript` queries,
and no dialog is shown; the enabled-check recurs only if something else (a
dialog response or an after-save event) restarts the timer. -/
theorem C4_amended_enabled_expiry_not_rescheduled (env : Env)
    (σ σ' : ManagerState) (effs : List Effect)
    (hen : autosave_enabled env = true)
    (h : step env Op.timerFire σ = some (Except.ok (σ', effs))) :
    σ' = { σ with
        autosave_timer := σ.autosave_timer.map (fun t => { t with active := false }) } ∧
      effs = [Effect.hscript "autosave", Effect.hscript "autosave"] ∧
      is_autosave_timer_active σ' = false := by
  unfold step at h
  cases hta : is_autosave_timer_active σ with
  | false => rw [hta] at h; simp at h
  | true =>
      rw [hta] at h
      simp only [eq_self_iff_true, if_true] at h
      injection h with h1
      injection h1 with h2
      unfold check_autosave at h2
      rw [hen] at h2
      simp only [Bool.not_true, Bool.false_eq_true, if_false] at h2
      injection h2 with ha hb
      refine ⟨ha.symm, hb.symm, ?_⟩
      rw [← ha]
      exact deactivate_inactive σ

/-- C4 amended witness: the concrete enabled-case expiry. -/
theorem C4_amended_enabled_expiry_not_rescheduled_witness :
    expiredTimerState = { activeTimerState with
        autosave_timer :=
          activeTimerState.autosave_timer.map (fun t => { t with active := false }) } ∧
      [Effect.hscript "autosave", Effect.hscript "autosave"] =
        [Effect.hscript "autosave", Effect.hscript "autosave"] ∧
      is_autosave_timer_active expiredTimerState = false :=
  C4_amended_enabled_expiry_not_rescheduled envEnabledGui activeTimerState
    expiredTimerState [Effect.hscript "autosave", Effect.hscript "autosave"]
    (by decide) (by decide)

/-- C7: across every successful step of the manager, the persistence call
`hou.hipFile.save()` appears in the effect trace exactly when the operation is
the dialog response with the "Save" button; timer starts and stops, the
enabled check, hipFile event callbacks and `setup` never save. -/
theorem C7_save_effect_only_from_save_button (env : Env) (op : Op)
    (σ σ' : ManagerState) (effs : List Effect)
    (h : step env op σ = some (Except.ok (σ', effs))) :
    Effect.hipSave ∈ effs ↔ op = Op.dialogFinish (some "Save") := by
  cases op with
  | timerFire =>
      unfold step at h
      cases hta : is_autosave_timer_active σ with
      | false => rw [hta] at h; simp at h
      | true =>
          rw [hta] at h
          simp only [eq_self_iff_true, if_true] at h
          injection h with h1
          injection h1 with h2
          have heff := congrArg Prod.snd h2
          simp only [] at heff
          constructor
          · intro hmem
            rw [← heff] at hmem
            exact absurd hmem (check_autosave_no_hipSave env _)
          · intro hop
            exact absurd hop (by simp)
  | dialogFinish c =>
      unfold step at h
      cases hmsg : σ.autosave_msg with
      | none => rw [hmsg] at h; simp at h
      | some m =>
          rw [hmsg] at h
          simp only [] at h
          cases hc : m.visible && m.finishedConnected with
          | false => rw [hc] at h; simp at h
          | true =>
              rw [hc] at h
              simp only [eq_self_iff_true, if_true] at h
              injection h with h1
              unfold auto_save_done at h1
              simp only [] at h1
              cases c with
              | none =>
                  constructor
                  · intro hmem
                    exact absurd hmem (start_no_hipSave env _ σ' false effs h1)
                  · intro hop
                    exact absurd hop (by simp)
              | some b =>
                  simp only [] at h1
                  by_cases hb : b = "Save"
                  · subst hb
                    simp only [if_true] at h1
                    rw [save_scene_spec] at h1
                    simp only [] at h1
                    constructor
                    · intro _
                      rfl
                    · intro _
                      cases hst : start_autosave_timer env
                          { σ with autosave_msg := some { m with visible := false } }
                          false with
                      | ok r =>
                          obtain ⟨s2, e2⟩ := r
                          rw [hst] at h1
                          injection h1 with h2
                          injection h2 with ha hb2
                          rw [← hb2]
                          simp
                      | error e =>
                          rw [hst] at h1
                          exact absurd h1 (by simp)
                  · rw [if_neg hb] at h1
                    have hnot : Effect.hipSave ∉ effs := by
                      by_cases hb2 : b = "No, don\x27t ask again in this session"
                      · rw [if_pos hb2] at h1
                        cases hst : start_autosave_timer env
                            { σ with autosave_msg := some { m with visible := false }, autosave_session_mute := true } true with
                        | ok r =>
                            obtain ⟨s2, e2⟩ := r
                            rw [hst] at h1
                            injection h1 with h2
                            injection h2 with ha hb3
                            rw [← hb3]
                            exact start_no_hipSave env _ s2 true e2 hst
                        | error e =>
                            rw [hst] at h1
                            exact absurd h1 (by simp)
                      · rw [if_neg hb2] at h1
                        exact start_no_hipSave env _ σ' false effs h1
                    constructor
                    · intro hmem
                      exact absurd hmem hnot
                    · intro hop
                      injection hop with hop1
                      injection hop1 with hop2
                      exact absurd hop2 hb
  | hipEvent e =>
      have hnot : Effect.hipSave ∉ effs := by
        cases e with
        | afterSave =>
            unfold step scene_event_callback on_scene_file_saved at h
            cases hsr : should_autosave_timer_run env σ with
            | false =>
                rw [hsr] at h
                simp only [Bool.false_eq_true, if_false] at h
                injection h with h1
                injection h1 with h2
                injection h2 with ha hb
                rw [← hb]
                simp
            | true =>
                rw [hsr] at h
                simp only [if_true] at h
                injection h with h1
                exact start_no_hipSave env σ σ' false effs h1
        | other =>
            unfold step scene_event_callback at h
            injection h with h1
            injection h1 with h2
            injection h2 with ha hb
            rw [← hb]
            simp
      constructor
      · intro hmem
        exact absurd hmem hnot
      · intro hop
        exact absurd hop (by simp)
  | setupCall =>
      have hnot : Effect.hipSave ∉ effs := by
        unfold step setup at h
        cases hsr : should_autosave_timer_run env σ with
        | false =>
            rw [hsr] at h
            simp only [Bool.false_eq_true, if_false] at h
            injection h with h1
            injection h1 with h2
            injection h2 with ha hb
            rw [← hb]
            simp
        | true =>
            rw [hsr] at h
            simp only [if_true] at h
            cases hst : start_autosave_timer env σ false with
            | ok r =>
                obtain ⟨s2, e2⟩ := r
                rw [hst] at h
                injection h with h1
                injection h1 with h2
                injection h2 with ha hb
                rw [← hb]
                have := start_no_hipSave env σ s2 false e2 hst
                simp [List.mem_append]
                intro hmem
                exact absurd hmem this
            | error e =>
                rw [hst] at h
                exact absurd h (by simp)
      constructor
      · intro hmem
        exact absurd hmem hnot
      · intro hop
        exact absurd hop (by simp)
  | startTimer q =>
      unfold step at h
      injection h with h1
      have hnot := start_no_hipSave env σ σ' q effs h1
      constructor
      · intro hmem
        exact absurd hmem hnot
      · intro hop
        exact absurd hop (by simp)

/-- C7 witness: the concrete "Save" response carries the save effect. -/
theorem C7_save_effect_only_from_save_button_witness :
    Effect.hipSave ∈ [Effect.hipSave, Effect.timerStart 12000] ↔
      Op.dialogFinish (some "Save") = Op.dialogFinish (some "Save") :=
  C7_save_effect_only_from_save_button envDisabledGui
    (Op.dialogFinish (some "Save")) promptOpenState savedRestartState
    [Effect.hipSave, Effect.timerStart 12000] (by decide)

/-- C9: each `start_autosave_timer` call stops the active timer before
replacing it, so every replaced timer object is inactive; this invariant is
preserved by every successful step, and under it at most one timer is active
at any time. -/
theorem C9_at_most_one_active_timer (env : Env) (op : Op)
    (σ σ' : ManagerState) (effs : List Effect) (hOI : OrphansInactive σ)
    (h : step env op σ = some (Except.ok (σ', effs))) :
    OrphansInactive σ' ∧ activeTimerCount σ' ≤ 1 := by
  have hOI' : OrphansInactive σ' := by
    cases op with
    | timerFire =>
        unfold step at h
        cases hta : is_autosave_timer_active σ with
        | false => rw [hta] at h; simp at h
        | true =>
            rw [hta] at h
            simp only [eq_self_iff_true, if_true] at h
            injection h with h1
            injection h1 with h2
            have hfst := congrArg Prod.fst h2
            simp only [] at hfst
            apply orphansInactive_of_eq σ' σ ?_ hOI
            rw [← hfst, check_autosave_orphans]
    | dialogFinish c =>
        unfold step at h
        cases hmsg : σ.autosave_msg with
        | none => rw [hmsg] at h; simp at h
        | some m =>
            rw [hmsg] at h
            simp only [] at h
            cases hc : m.visible && m.finishedConnected with
            | false => rw [hc] at h; simp at h
            | true =>
                rw [hc] at h
                simp only [eq_self_iff_true, if_true] at h
                injection h with h1
                obtain ⟨σ0, q, effs0, horph, hst⟩ :=
                  auto_save_done_from_start env _ σ' c effs h1
                have hOI0 : OrphansInactive σ0 :=
                  orphansInactive_of_eq σ0 σ (by rw [horph]) hOI
                exact start_orphans env σ0 σ' q effs0 hOI0 hst
    | hipEvent e =>
        cases e with
        | afterSave =>
            unfold step scene_event_callback on_scene_file_saved at h
            cases hsr : should_autosave_timer_run env σ with
            | false =>
                rw [hsr] at h
                simp only [Bool.false_eq_true, if_false] at h
                injection h with h1
                injection h1 with h2
                injection h2 with ha hb
                rw [← ha]
                exact hOI
            | true =>
                rw [hsr] at h
                simp only [if_true] at h
                injection h with h1
                exact start_orphans env σ σ' false effs hOI h1
        | other =>
            unfold step scene_event_callback at h
            injection h with h1
            injection h1 with h2
            injection h2 with ha hb
            rw [← ha]
            exact hOI
    | setupCall =>
        unfold step setup at h
        cases hsr : should_autosave_timer_run env σ with
        | false =>
            rw [hsr] at h
            simp only [Bool.false_eq_true, if_false] at h
            injection h with h1
            injection h1 with h2
            injection h2 with ha hb
            rw [← ha]
            exact hOI
        | true =>
            rw [hsr] at h
            simp only [if_true] at h
            cases hst : start_autosave_timer env σ false with
            | ok r =>
                obtain ⟨s2, e2⟩ := r
                rw [hst] at h
                injection h with h1
                injection h1 with h2
                injection h2 with ha hb
                rw [← ha]
                exact start_orphans env σ s2 false e2 hOI hst
            | error e =>
                rw [hst] at h
                exact absurd h (by simp)
    | startTimer q =>
        unfold step at h
        injection h with h1
        exact start_orphans env σ σ' q effs hOI h1
  exact ⟨hOI', count_le_one σ' hOI'⟩

/-- C9 witness: a concrete timer start from the initial state. -/
theorem C9_at_most_one_active_timer_witness :
    OrphansInactive activeTimerState ∧ activeTimerCount activeTimerState ≤ 1 :=
  C9_at_most_one_active_timer envDisabledGui (Op.startTimer false) initState
    activeTimerState [Effect.timerStart 12000]
    (by intro t ht; simp [initState] at ht) (by decide)

/-- C10: with a non-numeric string as `autosave_interval`, the `float`
conversion fails, its `ValueError` is caught and the invalid value is kept,
and the later `int(self.autosave_interval * 60 * 1000)` raises an uncaught
`ValueError` out of `start_autosave_timer`. -/
theorem C10_non_numeric_interval_raises :
    pyFloatOfString "abc" = none ∧
    coerceInterval strIntervalState = strIntervalState ∧
    start_autosave_timer envDisabledGui strIntervalState false =
      Except.error PyExc.valueError := by
  refine ⟨by decide, by decide, by decide⟩

end Autosave
